import Mathlib

/-!
Verification of the BulbdialClock firmware (src/BulbdialClock.ino).

The source file contains two near-duplicate historical revisions of the
sketch, separated by a marker around line 1579:
  - revision 1 (lines 1..1577): interrupt-driven multiplexing, dwell
    variables D0..D5;
  - revision 2 (lines 1579..3071): busy-loop multiplexing, dwell
    variables d0..d5.
Every definition below is a direct shallow embedding of a function or
expression of the source; comments cite the revision and line range.
Machine integers: `byte` is embedded as ℕ (with an explicit `% 256` at
increments that can wrap), `long timeNow` as ℤ, `unsigned int` casts as
`% 65536`.  Hardware registers, the two-wire bus, the serial port, and
real-time (millis) stay outside the model; button inputs are the three
sampled PIND bits, with `true` meaning the line is high (button NOT
pressed, because of the pull-up resistors).
-/

namespace Bulbdial

/-- Gamma table `FadeConv` of revision 1 (lines 110..116), 201 entries. -/
def FadeConvRev1 : List Nat :=
  [0, 0, 1, 1, 1, 2, 2, 2, 3, 3, 3, 3, 4, 4, 4, 5, 5, 5, 6, 6, 6, 7, 7, 7, 8, 8, 8, 9, 9, 9, 9, 10,
   10, 10, 11, 11, 11, 12, 12, 12, 13, 13, 13, 14, 14, 14, 14, 15, 15, 15, 16, 16, 16, 17, 17, 17,
   18, 18, 18, 19, 19, 19, 20, 20, 20, 20, 21, 21, 21, 22, 22, 22, 23, 23, 23, 24, 24, 24, 25, 25,
   25, 26, 26, 26, 26, 27, 27, 27, 28, 28, 28, 29, 29, 29, 30, 30, 30, 31, 31, 31, 32, 32, 32, 32,
   33, 33, 33, 34, 34, 34, 35, 35, 35, 36, 36, 36, 37, 37, 37, 37, 38, 38, 38, 39, 39, 39, 40, 40,
   40, 41, 41, 41, 42, 42, 42, 43, 43, 43, 43, 44, 44, 44, 45, 45, 45, 46, 46, 46, 47, 47, 47, 48,
   48, 48, 49, 49, 49, 49, 50, 50, 50, 51, 51, 51, 52, 52, 52, 53, 53, 53, 54, 54, 54, 54, 55, 55,
   55, 56, 56, 56, 57, 57, 57, 58, 58, 58, 59, 59, 59, 60, 60, 60, 60, 61, 61, 61, 62, 62, 62, 63,
   63]

/-- Gamma table `FadeConv` of revision 2 (lines 1687..1694), 201 entries. -/
def FadeConvRev2 : List Nat :=
  [0, 0, 0, 0, 0, 1, 1, 1, 1, 1, 1, 1, 2, 2, 2, 2, 2, 3, 3, 3, 3, 3, 4, 4, 4, 4, 4, 5, 5, 5, 5, 6,
   6, 6, 6, 7, 7, 7, 7, 8, 8, 8, 8, 9, 9, 9, 9, 10, 10, 10, 10, 11, 11, 11, 11, 12, 12, 12, 13, 13,
   13, 13, 14, 14, 14, 15, 15, 15, 15, 16, 16, 16, 17, 17, 17, 18, 18, 18, 19, 19, 19, 19, 20, 20,
   20, 21, 21, 21, 22, 22, 22, 23, 23, 23, 24, 24, 24, 25, 25, 25, 26, 26, 26, 27, 27, 27, 28, 28,
   28, 29, 29, 29, 30, 30, 30, 31, 31, 31, 32, 32, 32, 33, 33, 33, 34, 34, 35, 35, 35, 36, 36, 36,
   37, 37, 37, 38, 38, 39, 39, 39, 40, 40, 40, 41, 41, 41, 42, 42, 43, 43, 43, 44, 44, 44, 45, 45,
   46, 46, 46, 47, 47, 48, 48, 48, 49, 49, 49, 50, 50, 51, 51, 51, 52, 52, 53, 53, 53, 54, 54, 55,
   55, 55, 56, 56, 57, 57, 57, 58, 58, 59, 59, 59, 60, 60, 61, 61, 61, 62, 62, 63, 63]

/-- Dwell computation of revision 1 (lines 1532..1537), e.g.
`D0 = HourBright*HrFade1*tempbright >> 7 + 1;`.
In C the additive `+` binds tighter than the shift, so the expression
parses as `(HourBright*HrFade1*tempbright) >> (7 + 1)`, i.e. a division
by 256, even though the comments on those lines say
`hbrt * fade * brt / 128` and that the `+1` eliminates glitches.
The final `% 256` is the assignment into the `byte` variable. -/
def dwellRev1 (chanBright fade tempbright : Nat) : Nat :=
  ((chanBright * fade * tempbright) >>> (7 + 1)) % 256

/-- Dwell computation of revision 2 (lines 2971..2976), e.g.
`d0 = HourBright*HrFade1*tempbright >> 7;`  (a division by 128, no bias). -/
def dwellRev2 (chanBright fade tempbright : Nat) : Nat :=
  ((chanBright * fade * tempbright) >>> 7) % 256

/-- Dwell value the specification claims:
`channelBrightness * fadeWeight * globalBrightness / 128`, with a `+1`
bias so that nonzero inputs give a nonzero dwell.  Modelled from the
spec wording (and from the comments on lines 1530..1533) for comparison
with `dwellRev1` and `dwellRev2`. -/
def dwellClaimed (chanBright fade tempbright : Nat) : Nat :=
  chanBright * fade * tempbright / 128 + 1

/-- Hour count of `NormalFades` (revision 1 lines 494..498): with
`t = timeNow` as an unsigned int, `HrNow = t/3600`. -/
def hrNowOf (t : Nat) : Nat := t / 3600

/-- Minute count of `NormalFades` (revision 1 lines 494..498):
`t = t - HrNow*3600; MinNow = t/60`. -/
def minNowOf (t : Nat) : Nat := (t - t / 3600 * 3600) / 60

/-- Second count of `NormalFades` (revision 1 lines 494..498):
`SecNow = t - MinNow*60` after the hour was subtracted. -/
def secNowOf (t : Nat) : Nat :=
  t - t / 3600 * 3600 - (t - t / 3600 * 3600) / 60 * 60

/-- Milliseconds counter as extended by `NormalFades` case 4 (revision 1
lines 537..538): `if (SecNow & 1) msNow += 1000;`. -/
def msExt (secNow ms : Nat) : Nat := if secNow % 2 = 1 then ms + 1000 else ms

/-- Second-ring table index of `NormalFades` case 4 (revision 1 line 539):
`FadeConv[msNow/10]`. -/
def secFadeIdx (secNow ms : Nat) : Nat := msExt secNow ms / 10

/-- Second count as extended by `NormalFades` case 4 (revision 1 lines
540..541): `if (MinNow & 1) SecNow += 60;`. -/
def secExt (minNow secNow : Nat) : Nat :=
  if minNow % 2 = 1 then secNow + 60 else secNow

/-- Minute-ring table index of `NormalFades` case 4 (revision 1 line 542):
`FadeConv[SecNow*5/3]`. -/
def minFadeIdx (minNow secNow : Nat) : Nat := secExt minNow secNow * 5 / 3

/-- Hour-ring table index of `NormalFades` case 4 (revision 1 line 543):
`FadeConv[MinNow*10/3]`. -/
def hrFadeIdx (minNow : Nat) : Nat := minNow * 10 / 3

/-- `NormalTimeDisplay` of revision 1 (lines 444..486).  The argument `t`
is the value of the local `unsigned int t = timeNow;`; the six results
are `(HrDisp, HrNext, MinDisp, MinNext, SecDisp, SecNext)`.  This
revision halves the raw second/minute first, then applies the
15-position offset and wraps at 30. -/
def normalTimeDisplayRev1 (fadeMode settingTime t : Nat) :
    Nat × Nat × Nat × Nat × Nat × Nat :=
  let hrNow := t / 3600
  let t2 := t - hrNow * 3600
  let minNow := t2 / 60
  let secNow := t2 - minNow * 60
  let secDisp := secNow / 2 + 15
  let secDisp := if secDisp > 29 then secDisp - 30 else secDisp
  let secNext := secDisp + 1
  let secNext := if secNext > 29 then 0 else secNext
  let minDisp := minNow / 2 + 15
  let minDisp := if minDisp > 29 then minDisp - 30 else minDisp
  let minNext := minDisp + 1
  let minNext := if minNext > 29 then 0 else minNext
  let hrDisp := hrNow + 6
  let hrDisp :=
    if fadeMode = 2 ∧ settingTime = 0 ∧ minNow > 30 then hrDisp + 1 else hrDisp
  let hrDisp := if hrDisp > 11 then hrDisp - 12 else hrDisp
  let hrNext := hrDisp + 1
  let hrNext := if hrNext > 11 then 0 else hrNext
  (hrDisp, hrNext, minDisp, minNext, secDisp, secNext)

/-- `NormalTimeDisplay` of revision 2 (lines 2022..2062).  This revision
adds the 30-unit offset on the raw 60-unit scale, wraps at 60, then
halves (`SecDisp >>= 1`); `MinNext` wraps with `MinNext -= 30`.  Here
`t` is `timeNow` (the claim restricts to `0 ≤ timeNow < 43200`, where
the `long` arithmetic of the source agrees with ℕ). -/
def normalTimeDisplayRev2 (fadeMode settingTime t : Nat) :
    Nat × Nat × Nat × Nat × Nat × Nat :=
  let hrNow := t / 3600
  let minNow := t / 60 % 60
  let secNow := t % 60
  let secDisp := secNow + 30
  let secDisp := if secDisp > 59 then secDisp - 60 else secDisp
  let secDisp := secDisp >>> 1
  let secNext := secDisp + 1
  let secNext := if secNext > 29 then 0 else secNext
  let minDisp := minNow + 30
  let minDisp := if minDisp > 59 then minDisp - 60 else minDisp
  let minDisp := minDisp >>> 1
  let minNext := minDisp + 1
  let minNext := if minNext > 29 then minNext - 30 else minNext
  let hrDisp := hrNow + 6
  let hrDisp :=
    if fadeMode = 2 ∧ settingTime = 0 ∧ minNow > 30 then hrDisp + 1 else hrDisp
  let hrDisp := if hrDisp > 11 then hrDisp - 12 else hrDisp
  let hrNext := hrDisp + 1
  let hrNext := if hrNext > 11 then 0 else hrNext
  (hrDisp, hrNext, minDisp, minNext, secDisp, secNext)

/-- Persisted settings record: the six EEPROM-backed globals of both
revisions (lines 295..313 / 1872..1889). -/
structure Settings where
  MainBright : Nat
  HourBright : Nat
  MinBright : Nat
  SecBright : Nat
  CCW : Nat
  FadeMode : Nat
deriving DecidableEq

/-- The six persisted EEPROM bytes, locations 0..5. -/
structure EEBytes where
  e0 : Nat
  e1 : Nat
  e2 : Nat
  e3 : Nat
  e4 : Nat
  e5 : Nat
deriving DecidableEq

/-- `EEPROM.read(loc)` on the six modelled locations. -/
def eeRead (e : EEBytes) (loc : Nat) : Nat :=
  match loc with
  | 0 => e.e0
  | 1 => e.e1
  | 2 => e.e2
  | 3 => e.e3
  | 4 => e.e4
  | _ => e.e5

/-- `EEPROM.write(loc, val)` on the six modelled locations. -/
def eeWrite (e : EEBytes) (loc val : Nat) : EEBytes :=
  match loc with
  | 0 => { e with e0 := val }
  | 1 => { e with e1 := val }
  | 2 => { e with e2 := val }
  | 3 => { e with e3 := val }
  | 4 => { e with e4 := val }
  | _ => { e with e5 := val }

/-- `EEUpdate` (revision 1 lines 416..421): read the stored byte and
write only when it differs.  The second component counts the physical
writes issued (0 or 1). -/
def eeUpdate (e : EEBytes) (loc val : Nat) : EEBytes × Nat :=
  let c := eeRead e loc
  if c ≠ val then (eeWrite e loc val, 1) else (e, 0)

/-- `ApplyDefaults` (revision 1 lines 343..360): the hard-coded factory
defaults `MainBrightDefault 8`, `RedBrightDefault 63`,
`GreenBrightDefault 63`, `BlueBrightDefault 63`, `CCWDefault 0`,
`FadeModeDefault 1`. -/
def applyDefaults : Settings :=
  { MainBright := 8, HourBright := 63, MinBright := 63, SecBright := 63,
    CCW := 0, FadeMode := 1 }

/-- `EEReadSettings` (revision 1 lines 363..413).  `prior` holds the
global settings at call time (fields are only assigned when the stored
byte passes that field's test); when any test failed, `ApplyDefaults`
replaces every field.  Note the source checks only `value == 255` for
the fade mode, and accepts `value == 0` for `MainBright`, coercing just
that field to 1. -/
def eeReadSettings (e : EEBytes) (prior : Settings) : Settings :=
  let v0 := eeRead e 0
  let mainBright := if v0 > 8 then prior.MainBright else v0
  let mainBright := if v0 = 0 then 1 else mainBright
  let v1 := eeRead e 1
  let hourBright := if v1 > 63 then prior.HourBright else v1
  let v2 := eeRead e 2
  let minBright := if v2 > 63 then prior.MinBright else v2
  let v3 := eeRead e 3
  let secBright := if v3 > 63 then prior.SecBright else v3
  let v4 := eeRead e 4
  let ccw := if v4 > 1 then prior.CCW else v4
  let v5 := eeRead e 5
  let fadeMode := if v5 = 255 then prior.FadeMode else v5
  if v0 > 8 ∨ v1 > 63 ∨ v2 > 63 ∨ v3 > 63 ∨ v4 > 1 ∨ v5 = 255 then
    applyDefaults
  else
    { MainBright := mainBright, HourBright := hourBright,
      MinBright := minBright, SecBright := secBright, CCW := ccw,
      FadeMode := fadeMode }

/-- The six `EEUpdate` calls of `EESaveSettings` (revision 1 lines
429..434).  Returns the new EEPROM contents and the total number of
physical writes issued. -/
def eeSaveBytes (s : Settings) (e : EEBytes) : EEBytes × Nat :=
  let (e, w0) := eeUpdate e 0 s.MainBright
  let (e, w1) := eeUpdate e 1 s.HourBright
  let (e, w2) := eeUpdate e 2 s.MinBright
  let (e, w3) := eeUpdate e 3 s.SecBright
  let (e, w4) := eeUpdate e 4 s.CCW
  let (e, w5) := eeUpdate e 5 s.FadeMode
  (e, w0 + w1 + w2 + w3 + w4 + w5)

/-- BCD decoding used by `RTCgetTime` for the seconds and minutes
registers (revision 1 lines 715..716):
`((x & 0b11110000)>>4)*10 + (x & 0b00001111)`. -/
def bcdDecode (x : Nat) : Nat := ((x &&& 240) >>> 4) * 10 + (x &&& 15)

/-- BCD decoding used by `RTCgetTime` for the hours register (revision 1
line 717): `((x & 0b00110000)>>4)*10 + (x & 0b00001111)`. -/
def bcdDecodeHours (x : Nat) : Nat := ((x &&& 48) >>> 4) * 10 + (x &&& 15)

/-- RTC-derived time of `RTCgetTime` (revision 1 lines 718..720):
`timeRTC = 3600*hours + 60*minutes + seconds` computed in 16-bit
arithmetic and stored in an `unsigned int` (hence the `% 65536`), then
folded once by `if (timeRTC > 43200) timeRTC -= 43200;`. -/
def rtcDerivedTime (rawSec rawMin rawHour : Nat) : Nat :=
  let seconds := bcdDecode rawSec
  let minutes := bcdDecode rawMin
  let hours := bcdDecodeHours rawHour
  let timeRTC := (3600 * hours + 60 * minutes + seconds) % 65536
  if timeRTC > 43200 then timeRTC - 43200 else timeRTC

/-- Correction policy of `RTCgetTime` (revision 1 lines 714..739), for a
successful read (`status == 1`): decide whether to overwrite `timeNow`
with the RTC-derived time.  Returns the new `(timeNow, UpdateRTC)`
pair.  `if (minutes)` skips the discrepancy check at the top of the
hour; `if (UpdateRTC)` forces the very first read to be accepted. -/
def rtcGetUpdate (rawSec rawMin rawHour : Nat) (timeNow : Int)
    (updateRTC : Bool) : Int × Bool :=
  let minutes := bcdDecode rawMin
  let timeRTC : Int := rtcDerivedTime rawSec rawMin rawHour
  let updatetime := decide (minutes ≠ 0 ∧ (timeRTC - timeNow).natAbs > 2)
  let updatetime := updatetime || updateRTC
  if updatetime then (timeRTC, false) else (timeNow, updateRTC)

/-- One sample of `PIND & buttonmask`: the three button lines D5 (`+`),
D6 (`-`), D7 (`Z`).  `true` = line high = button up (pull-ups), so the
mask values of the source translate as: `224` = all up, `128` = only Z
up (`+`/`-` pressed), `64` = only `-` up (`+`/`Z` pressed), `96` =
`+`/`-` up (only `Z` pressed). -/
structure Buttons where
  plusUp : Bool
  minusUp : Bool
  zUp : Bool
deriving DecidableEq

/-- PIND sample with no buttons pressed (`PIND & buttonmask == 224`). -/
def allUp : Buttons := ⟨true, true, true⟩

/-- PIND sample while `+` and `-` are held (`== 128`), the alignment
hold combination. -/
def comboAlign : Buttons := ⟨false, false, true⟩

/-- PIND sample while `+` and `Z` are held (`== 64`), the option hold
combination. -/
def comboOption : Buttons := ⟨false, true, false⟩

/-- PIND sample while `Z` alone is held (`== 96`), the time-setting hold
combination. -/
def comboTimeSet : Buttons := ⟨true, true, false⟩

/-- PIND sample while only `+` is held. -/
def plusDown : Buttons := ⟨false, true, true⟩

/-- PIND sample while only `-` is held. -/
def minusDown : Buttons := ⟨true, false, true⟩

/-- Control state of revision 1: the globals of lines 287..341 that the
main loop's button/time logic reads or writes.  Fade weights, the
volatile H/L/D multiplexer slots and the serial/RTC collaborators are
pure outputs or external interfaces and are modelled by the standalone
functions above.  `byte` counters that the source lets wrap keep an
explicit `% 256`. -/
structure ClockState where
  timeNow : Int
  settings : Settings
  SleepMode : Nat
  VCRmode : Nat
  FactoryResetDisable : Nat
  SettingTime : Nat
  AlignMode : Nat
  OptionMode : Nat
  AlignValue : Nat
  AlignRate : Int
  AlignLoopCount : Nat
  StartingOption : Nat
  HoldTimeSet : Nat
  HoldOption : Nat
  HoldAlign : Nat
  MomentaryOverridePlus : Nat
  MomentaryOverrideMinus : Nat
  MomentaryOverrideZ : Nat
  TimeSinceButton : Nat
  LastSavedBrightness : Nat
  PINDLast : Buttons
  ExtRTC : Nat
  UpdateRTC : Nat
  ee : EEBytes
  HrDisp : Nat
  MinDisp : Nat
  SecDisp : Nat
  HrNext : Nat
  MinNext : Nat
  SecNext : Nat
deriving DecidableEq

/-- `ApplyDefaults` acting on the state's settings fields. -/
def applyDefaultsS (s : ClockState) : ClockState :=
  { s with settings := applyDefaults }

/-- `EESaveSettings` (revision 1 lines 423..441): six `EEUpdate` calls
and `LastSavedBrightness = MainBright`.  The trailing `Blink(200)` only
toggles the display and is not part of the control state. -/
def eeSaveSettingsS (s : ClockState) : ClockState :=
  { s with ee := (eeSaveBytes s.settings s.ee).1,
           LastSavedBrightness := s.settings.MainBright }

/-- `IncrAlignVal` (revision 1 lines 958..972), as the new value of the
`AlignValue` global. -/
def incrAlignVal (alignMode v : Nat) : Nat :=
  if alignMode < 5 then (if v + 1 > 29 then 0 else v + 1)
  else (if v + 1 > 11 then 0 else v + 1)

/-- `DecrAlignVal` (revision 1 lines 975..987), as the new value of the
`AlignValue` global. -/
def decrAlignVal (alignMode v : Nat) : Nat :=
  if v > 0 then v - 1
  else if alignMode < 5 then 29
  else 11

/-- The option-mode adjustments of the `+`-release block (revision 1
lines 1025..1052): the five `if (OptionMode == k)` tests are mutually
exclusive, so each global gets its new value directly. -/
def optAdjustPlus (optionMode : Nat) (st : Settings) : Settings :=
  { st with
    HourBright := if optionMode = 1 ∧ st.HourBright < 62 then
      st.HourBright + 2 else st.HourBright,
    MinBright := if optionMode = 2 ∧ st.MinBright < 62 then
      st.MinBright + 2 else st.MinBright,
    SecBright := if optionMode = 3 ∧ st.SecBright < 62 then
      st.SecBright + 2 else st.SecBright,
    CCW := if optionMode = 4 then 0 else st.CCW,
    FadeMode := if optionMode = 5 ∧ st.FadeMode < 4 then
      st.FadeMode + 1 else st.FadeMode }

/-- The option-mode adjustments of the `-`-release block (revision 1
lines 1105..1131). -/
def optAdjustMinus (optionMode : Nat) (st : Settings) : Settings :=
  { st with
    HourBright := if optionMode = 1 ∧ st.HourBright > 1 then
      st.HourBright - 2 else st.HourBright,
    MinBright := if optionMode = 2 ∧ st.MinBright > 1 then
      st.MinBright - 2 else st.MinBright,
    SecBright := if optionMode = 3 ∧ st.SecBright > 1 then
      st.SecBright - 2 else st.SecBright,
    CCW := if optionMode = 4 then 1 else st.CCW,
    FadeMode := if optionMode = 5 ∧ st.FadeMode > 0 then
      st.FadeMode - 1 else st.FadeMode }

/-- The time-setting adjustments of the `+`-release block (revision 1
lines 1053..1066): add an hour, a minute or a second according to the
sub-state (a second-add returns to sub-state 3), then wrap with
`if (timeNow > 43200) timeNow -= 43200;`.  Returns the new
`(timeNow, SettingTime)`. -/
def settingAdjustPlus (settingTime : Nat) (t : Int) : Int × Nat :=
  let t := if settingTime = 1 then t + 3600 else t
  let t := if settingTime = 2 then t + 60 else t
  let t := if settingTime > 2 then t + 1 else t
  let st := if settingTime > 2 then 3 else settingTime
  (if t > 43200 then t - 43200 else t, st)

/-- The time-setting adjustments of the `-`-release block (revision 1
lines 1133..1145): subtract an hour, a minute or a second (a
second-subtract moves to sub-state 4, halting the tick), then wrap with
`if (timeNow < 0) timeNow += 43200;`. -/
def settingAdjustMinus (settingTime : Nat) (t : Int) : Int × Nat :=
  let t := if settingTime = 1 then t - 3600 else t
  let t := if settingTime = 2 then t - 60 else t
  let t := if settingTime > 2 then t - 1 else t
  let st := if settingTime > 2 then 4 else settingTime
  (if t < 0 then t + 43200 else t, st)

/-- The `+`-release edge block of `CheckButtons` (revision 1 lines
1001..1076), entered when `+` is up in the new sample and was down in
`PINDLast`. -/
def plusBlock (b : Buttons) (s : ClockState) : ClockState :=
  if b.plusUp && !s.PINDLast.plusUp then
    if s.MomentaryOverridePlus ≠ 0 then { s with MomentaryOverridePlus := 0 }
    else if s.SleepMode ≠ 0 then { s with SleepMode := 0 }
    else if s.AlignMode ≠ 0 then
      (if s.AlignMode % 2 = 1 then
        { s with AlignRate :=
            if s.AlignRate < 2 then s.AlignRate + 1 else s.AlignRate }
      else
        { s with AlignValue := incrAlignVal s.AlignMode s.AlignValue })
    else if s.OptionMode ≠ 0 then
      { s with settings := optAdjustPlus s.OptionMode s.settings }
    else if s.SettingTime ≠ 0 then
      { s with timeNow := (settingAdjustPlus s.SettingTime s.timeNow).1,
               SettingTime := (settingAdjustPlus s.SettingTime s.timeNow).2 }
    else
      { s with settings := { s.settings with MainBright :=
          if s.settings.MainBright + 1 > 8 then 8
          else s.settings.MainBright + 1 } }
  else s

/-- The `-`-release edge block of `CheckButtons` (revision 1 lines
1078..1155); its redundant `VCRmode = 0; TimeSinceButton = 0;` (lines
1081..1082) is folded into each branch. -/
def minusBlock (b : Buttons) (s : ClockState) : ClockState :=
  if b.minusUp && !s.PINDLast.minusUp then
    if s.MomentaryOverrideMinus ≠ 0 then
      { s with VCRmode := 0, TimeSinceButton := 0,
               MomentaryOverrideMinus := 0 }
    else if s.SleepMode ≠ 0 then
      { s with VCRmode := 0, TimeSinceButton := 0, SleepMode := 0 }
    else if s.AlignMode ≠ 0 then
      (if s.AlignMode % 2 = 1 then
        { s with VCRmode := 0, TimeSinceButton := 0, AlignRate :=
            if s.AlignRate > -3 then s.AlignRate - 1 else s.AlignRate }
      else
        { s with VCRmode := 0, TimeSinceButton := 0,
                 AlignValue := decrAlignVal s.AlignMode s.AlignValue })
    else if s.OptionMode ≠ 0 then
      { s with VCRmode := 0, TimeSinceButton := 0,
               settings := optAdjustMinus s.OptionMode s.settings }
    else if s.SettingTime ≠ 0 then
      { s with VCRmode := 0, TimeSinceButton := 0,
               timeNow := (settingAdjustMinus s.SettingTime s.timeNow).1,
               SettingTime := (settingAdjustMinus s.SettingTime s.timeNow).2 }
    else
      { s with VCRmode := 0, TimeSinceButton := 0,
               settings := { s.settings with MainBright :=
                 if s.settings.MainBright > 1 then s.settings.MainBright - 1
                 else 1 } }
  else s

/-- The `Z`-release edge block of `CheckButtons` (revision 1 lines
1157..1202). -/
def zBlock (b : Buttons) (s : ClockState) : ClockState :=
  if b.zUp && !s.PINDLast.zUp then
    if s.MomentaryOverrideZ ≠ 0 then
      { s with VCRmode := 0, TimeSinceButton := 0, MomentaryOverrideZ := 0 }
    else if s.AlignMode ≠ 0 then
      { s with VCRmode := 0, TimeSinceButton := 0,
               AlignMode := if s.AlignMode + 1 > 6 then 1 else s.AlignMode + 1,
               AlignValue := 0, AlignRate := 2 }
    else if s.OptionMode ≠ 0 then
      { s with VCRmode := 0, TimeSinceButton := 0,
               OptionMode :=
                 if s.OptionMode + 1 > 5 then 1 else s.OptionMode + 1,
               StartingOption := if s.OptionMode + 1 > 3 then 30 else 0 }
    else if s.SettingTime ≠ 0 then
      { s with VCRmode := 0, TimeSinceButton := 0,
               SettingTime :=
                 if s.SettingTime + 1 > 3 then 1 else s.SettingTime + 1 }
    else
      { s with VCRmode := 0, TimeSinceButton := 0,
               SleepMode := if s.SleepMode = 0 then 1 else 0 }
  else s

/-- `CheckButtons` (revision 1 lines 990..1206): when the sampled PIND
bits changed, clear VCR mode, reset the idle counter and run the three
release-edge blocks; `PINDLast = PINDcopy` happens unconditionally. -/
def checkButtons (b : Buttons) (s : ClockState) : ClockState :=
  let s :=
    if b ≠ s.PINDLast then
      zBlock b (minusBlock b (plusBlock b
        { s with VCRmode := 0, TimeSinceButton := 0 }))
    else s
  { s with PINDLast := b }

/-- The counting phase of `CheckHeld` (revision 1 lines 1213..1257):
with no buttons pressed, reset the three hold counters, disable the
factory reset, and advance the idle counter (saturating at 250, an
`EESaveSettings` at exactly 10 if the brightness changed); otherwise
bump the counter of the exact combination held, zeroing the others.
`tsbNext` is the idle-counter advance
`if (TimeSinceButton < 250) TimeSinceButton++;` of lines 1223..1224. -/
def tsbNext (tsb : Nat) : Nat := if tsb < 250 then tsb + 1 else tsb

/-- The dispatch of the counting phase of `CheckHeld` on the sampled
PIND bits (revision 1 lines 1213..1257). -/
def holdCount (b : Buttons) (s : ClockState) : ClockState :=
  if b = allUp then
    if tsbNext s.TimeSinceButton = 10 ∧
        s.LastSavedBrightness ≠ s.settings.MainBright then
      eeSaveSettingsS
        { s with HoldTimeSet := 0, HoldOption := 0, HoldAlign := 0,
                 FactoryResetDisable := 1,
                 TimeSinceButton := tsbNext s.TimeSinceButton }
    else
      { s with HoldTimeSet := 0, HoldOption := 0, HoldAlign := 0,
               FactoryResetDisable := 1,
               TimeSinceButton := tsbNext s.TimeSinceButton }
  else if b = comboAlign then
    { s with HoldAlign := (s.HoldAlign + 1) % 256, HoldOption := 0,
             HoldTimeSet := 0 }
  else if b = comboOption then
    { s with HoldOption := (s.HoldOption + 1) % 256, HoldTimeSet := 0,
             HoldAlign := 0 }
  else if b = comboTimeSet then
    { s with HoldTimeSet := (s.HoldTimeSet + 1) % 256, HoldOption := 0,
             HoldAlign := 0 }
  else s

/-- The `HoldAlign == 3` one-shot of `CheckHeld` (revision 1 lines
1259..1283): arm the `+`/`-` overrides, leave option/time-setting, and
either apply the power-on factory reset or toggle alignment mode. -/
def fireAlign (s : ClockState) : ClockState :=
  if s.HoldAlign = 3 then
    if s.FactoryResetDisable = 0 then
      eeSaveSettingsS (applyDefaultsS
        { s with MomentaryOverridePlus := 1, MomentaryOverrideMinus := 1,
                 OptionMode := 0, SettingTime := 0 })
    else if s.AlignMode ≠ 0 then
      { s with MomentaryOverridePlus := 1, MomentaryOverrideMinus := 1,
               OptionMode := 0, SettingTime := 0, AlignMode := 0 }
    else
      { s with MomentaryOverridePlus := 1, MomentaryOverrideMinus := 1,
               OptionMode := 0, SettingTime := 0, AlignMode := 1,
               AlignValue := 0, AlignRate := 2 }
  else s

/-- The `HoldOption == 3` one-shot of `CheckHeld` (revision 1 lines
1285..1300): arm the `+`/`Z` overrides and toggle option mode, saving
the settings when leaving it. -/
def fireOption (s : ClockState) : ClockState :=
  if s.HoldOption = 3 then
    if s.OptionMode ≠ 0 then
      eeSaveSettingsS
        { s with MomentaryOverridePlus := 1, MomentaryOverrideZ := 1,
                 AlignMode := 0, SettingTime := 0, OptionMode := 0 }
    else
      { s with MomentaryOverridePlus := 1, MomentaryOverrideZ := 1,
               AlignMode := 0, SettingTime := 0, OptionMode := 1,
               StartingOption := 0 }
  else s

/-- The `HoldTimeSet == 3` one-shot of `CheckHeld` (revision 1 lines
1302..1329): arm the `Z` override; leave whatever mode was active
(writing the RTC when leaving time-setting with an RTC present, saving
settings when leaving option mode), or enter time-setting from the
normal display. -/
def fireTimeSet (s : ClockState) : ClockState :=
  if s.HoldTimeSet = 3 then
    if s.AlignMode + s.OptionMode + s.SettingTime ≠ 0 then
      (if s.OptionMode ≠ 0 then
        eeSaveSettingsS
          { s with MomentaryOverrideZ := 1, SettingTime := 0,
                   AlignMode := 0, OptionMode := 0 }
      else
        { s with MomentaryOverrideZ := 1, SettingTime := 0,
                 AlignMode := 0, OptionMode := 0 })
    else
      { s with MomentaryOverrideZ := 1, SettingTime := 1,
               AlignMode := 0, OptionMode := 0 }
  else s

/-- `CheckHeld` (revision 1 lines 1209..1330). -/
def checkHeld (b : Buttons) (s : ClockState) : ClockState :=
  fireTimeSet (fireOption (fireAlign (holdCount b s)))

/-- The once-per-second tick of `loop` (revision 1 lines 1353..1358):
`if (SettingTime < 4) { timeNow++; if (timeNow>43200) timeNow -= 43200; }`. -/
def tickStep (s : ClockState) : ClockState :=
  if s.SettingTime < 4 then
    { s with timeNow :=
        if s.timeNow + 1 > 43200 then s.timeNow + 1 - 43200
        else s.timeNow + 1 }
  else s

/-- The auto-advance of `AlignDisplay` (revision 1 lines 553..584) in
the odd alignment sub-modes: returns the new
`(AlignLoopCount, AlignValue)` pair. -/
def alignAdvance (alignMode : Nat) (alignRate : Int) (alc value : Nat) :
    Nat × Nat :=
  if alignMode % 2 = 1 then
    let alignRateAbs : Int :=
      if alignRate ≥ 0 then alignRate + 1 else -alignRate
    let alc2 := (alc + 1) % 256
    let scaleRate : Nat :=
      if alignRateAbs > 2 then 10 else if alignRateAbs = 2 then 50 else 250
    if alc2 > scaleRate then
      (0, if alignRate ≥ 0 then incrAlignVal alignMode value
          else decrAlignVal alignMode value)
    else (alc2, value)
  else (alc, value)

/-- `AlignDisplay` (revision 1 lines 551..595): auto-advance of the odd
alignment sub-modes, then the displayed alignment positions. -/
def alignDisplayS (s : ClockState) : ClockState :=
  let a := alignAdvance s.AlignMode s.AlignRate s.AlignLoopCount s.AlignValue
  { s with AlignLoopCount := a.1, AlignValue := a.2,
           SecDisp := if a.2 + 15 > 29 then a.2 + 15 - 30 else a.2 + 15,
           MinDisp := if a.2 + 15 > 29 then a.2 + 15 - 30 else a.2 + 15,
           HrDisp := if a.2 + 6 > 11 then a.2 + 6 - 12 else a.2 + 6 }

/-- The startup-animation phase of `OptionDisplay` (revision 1 lines
601..632): returns the new
`(AlignLoopCount, StartingOption, HrDisp, MinDisp, SecDisp)`. -/
def optionStart (optionMode alc so hr mn sc : Nat) :
    Nat × Nat × Nat × Nat × Nat :=
  if so < 30 then
    let alc2 := (alc + 1) % 256
    if alc2 > 3 then
      (0,
       if optionMode > 3 then 30 else so + 1,
       if optionMode = 1 then (if hr + 1 > 11 then 0 else hr + 1) else hr,
       if optionMode = 2 then (if mn + 1 > 29 then 0 else mn + 1) else mn,
       if optionMode = 3 then (if sc + 1 > 29 then 0 else sc + 1) else sc)
    else (alc2, so, hr, mn, sc)
  else (alc, so, hr, mn, sc)

/-- `OptionDisplay` (revision 1 lines 598..647): the startup animation
phase followed by the steady display (spinning both lower rings for the
direction option, or the normal time display via
`normalTimeDisplayRev1` otherwise). -/
def optionDisplayS (s : ClockState) : ClockState :=
  let r := optionStart s.OptionMode s.AlignLoopCount s.StartingOption
    s.HrDisp s.MinDisp s.SecDisp
  if r.2.1 ≥ 30 then
    if s.OptionMode = 4 then
      { s with AlignLoopCount := r.1, StartingOption := r.2.1,
               HrDisp := r.2.2.1,
               MinDisp := if r.2.2.2.1 + 1 > 29 then 0 else r.2.2.2.1 + 1,
               SecDisp := if r.2.2.2.1 + 1 > 29 then 0 else r.2.2.2.1 + 1 }
    else
      { s with AlignLoopCount := r.1, StartingOption := r.2.1,
               HrDisp := (normalTimeDisplayRev1 s.settings.FadeMode
                 s.SettingTime ((s.timeNow % 65536).toNat)).1,
               HrNext := (normalTimeDisplayRev1 s.settings.FadeMode
                 s.SettingTime ((s.timeNow % 65536).toNat)).2.1,
               MinDisp := (normalTimeDisplayRev1 s.settings.FadeMode
                 s.SettingTime ((s.timeNow % 65536).toNat)).2.2.1,
               MinNext := (normalTimeDisplayRev1 s.settings.FadeMode
                 s.SettingTime ((s.timeNow % 65536).toNat)).2.2.2.1,
               SecDisp := (normalTimeDisplayRev1 s.settings.FadeMode
                 s.SettingTime ((s.timeNow % 65536).toNat)).2.2.2.2.1,
               SecNext := (normalTimeDisplayRev1 s.settings.FadeMode
                 s.SettingTime ((s.timeNow % 65536).toNat)).2.2.2.2.2 }
  else
    { s with AlignLoopCount := r.1, StartingOption := r.2.1,
             HrDisp := r.2.2.1, MinDisp := r.2.2.2.1, SecDisp := r.2.2.2.2 }

/-- The display-position recomputation of `loop` (revision 1 lines
1366..1377): `AlignDisplay`, `OptionDisplay` or `NormalTimeDisplay`
depending on the active mode.  The subsequent `LH1..LS2`/CCW mirroring
and the `H0..D5` writes are pure outputs of these fields and are not
part of the control state. -/
def displayUpdate (s : ClockState) : ClockState :=
  if s.AlignMode ≠ 0 then alignDisplayS s
  else if s.OptionMode ≠ 0 then optionDisplayS s
  else
    { s with
      HrDisp := (normalTimeDisplayRev1 s.settings.FadeMode s.SettingTime
        ((s.timeNow % 65536).toNat)).1,
      HrNext := (normalTimeDisplayRev1 s.settings.FadeMode s.SettingTime
        ((s.timeNow % 65536).toNat)).2.1,
      MinDisp := (normalTimeDisplayRev1 s.settings.FadeMode s.SettingTime
        ((s.timeNow % 65536).toNat)).2.2.1,
      MinNext := (normalTimeDisplayRev1 s.settings.FadeMode s.SettingTime
        ((s.timeNow % 65536).toNat)).2.2.2.1,
      SecDisp := (normalTimeDisplayRev1 s.settings.FadeMode s.SettingTime
        ((s.timeNow % 65536).toNat)).2.2.2.2.1,
      SecNext := (normalTimeDisplayRev1 s.settings.FadeMode s.SettingTime
        ((s.timeNow % 65536).toNat)).2.2.2.2.2 }

/-- One iteration of `loop` (revision 1 lines 1334..1577) restricted to
the control state: sample `RefreshTime` from the modes, run
`CheckButtons` on the PIND sample `b1`, and — when one second has
elapsed (`second = true`) — run `CheckHeld` on the (separately read)
PIND sample `b2` followed by the tick; finally recompute the displayed
positions when `RefreshTime` demands it.  The fade computation, the
dwell computation and the serial time sync further down the loop body
write no control state and are modelled by the standalone functions
above. -/
def loopIter (b1 b2 : Buttons) (second : Bool) (s : ClockState) : ClockState :=
  let r0 := s.AlignMode + s.SettingTime + s.OptionMode
  let s := checkButtons b1 s
  let s := if second then checkHeld b2 s else s
  let refresh := r0 ≠ 0 ∨ (second ∧ s.SettingTime < 4)
  let s := if second then tickStep s else s
  if refresh then displayUpdate s else s

/-- The state established by `setup` (revision 1 lines 745..845) when no
RTC module answers (`ExtRTC = 0`) and the EEPROM is factory-fresh (all
bytes 255, so `EEReadSettings` applies the defaults); buttons are up at
power-on.  C globals start zeroed. -/
def initState : ClockState :=
  { timeNow := 0,
    settings := eeReadSettings ⟨255, 255, 255, 255, 255, 255⟩
      { MainBright := 0, HourBright := 0, MinBright := 0, SecBright := 0,
        CCW := 0, FadeMode := 0 },
    SleepMode := 0, VCRmode := 1, FactoryResetDisable := 0,
    SettingTime := 0, AlignMode := 0, OptionMode := 0,
    AlignValue := 0, AlignRate := 2, AlignLoopCount := 0, StartingOption := 0,
    HoldTimeSet := 0, HoldOption := 0, HoldAlign := 0,
    MomentaryOverridePlus := 0, MomentaryOverrideMinus := 0,
    MomentaryOverrideZ := 0,
    TimeSinceButton := 0, LastSavedBrightness := 8,
    PINDLast := allUp, ExtRTC := 0, UpdateRTC := 1,
    ee := ⟨255, 255, 255, 255, 255, 255⟩,
    HrDisp := 0, MinDisp := 0, SecDisp := 0,
    HrNext := 0, MinNext := 0, SecNext := 0 }

/-- States of the firmware reachable from power-on by any sequence of
loop iterations, with arbitrary button input at each sample and an
arbitrary schedule of once-per-second tick iterations. -/
inductive Reachable : ClockState → Prop where
  | init : Reachable initState
  | step (b1 b2 : Buttons) (second : Bool) {s : ClockState} :
      Reachable s → Reachable (loopIter b1 b2 second s)

/-- Run a list of loop iterations (PIND sample for `CheckButtons`, PIND
sample for `CheckHeld`, whether one second elapsed) from a state. -/
def runTrace (steps : List (Buttons × Buttons × Bool)) (s : ClockState) :
    ClockState :=
  steps.foldl (fun s p => loopIter p.1 p.2.1 p.2.2 s) s

/-- The mode triple `(AlignMode, OptionMode, SettingTime)` of a state. -/
def modeTriple (s : ClockState) : Nat × Nat × Nat :=
  (s.AlignMode, s.OptionMode, s.SettingTime)

/-- The three momentary-override flags of a state. -/
def overridesOf (s : ClockState) : Nat × Nat × Nat :=
  (s.MomentaryOverridePlus, s.MomentaryOverrideMinus, s.MomentaryOverrideZ)

/-- The control portion of the state: every field except the displayed
ring positions and the alignment/option display counters, i.e. the
fields the display recomputation never writes. -/
structure Ctrl where
  timeNow : Int
  settings : Settings
  SleepMode : Nat
  VCRmode : Nat
  FactoryResetDisable : Nat
  SettingTime : Nat
  AlignMode : Nat
  OptionMode : Nat
  HoldTimeSet : Nat
  HoldOption : Nat
  HoldAlign : Nat
  MomentaryOverridePlus : Nat
  MomentaryOverrideMinus : Nat
  MomentaryOverrideZ : Nat
  TimeSinceButton : Nat
  LastSavedBrightness : Nat
  PINDLast : Buttons
  ExtRTC : Nat
  UpdateRTC : Nat
  ee : EEBytes
deriving DecidableEq

/-- Project the control portion out of a state. -/
def ctrlOf (s : ClockState) : Ctrl :=
  { timeNow := s.timeNow, settings := s.settings, SleepMode := s.SleepMode,
    VCRmode := s.VCRmode, FactoryResetDisable := s.FactoryResetDisable,
    SettingTime := s.SettingTime, AlignMode := s.AlignMode,
    OptionMode := s.OptionMode, HoldTimeSet := s.HoldTimeSet,
    HoldOption := s.HoldOption, HoldAlign := s.HoldAlign,
    MomentaryOverridePlus := s.MomentaryOverridePlus,
    MomentaryOverrideMinus := s.MomentaryOverrideMinus,
    MomentaryOverrideZ := s.MomentaryOverrideZ,
    TimeSinceButton := s.TimeSinceButton,
    LastSavedBrightness := s.LastSavedBrightness, PINDLast := s.PINDLast,
    ExtRTC := s.ExtRTC, UpdateRTC := s.UpdateRTC, ee := s.ee }

/-- A press followed by a release of the buttons `b`, both sampled in
loop iterations where no second elapses. -/
def pr (b : Buttons) : List (Buttons × Buttons × Bool) :=
  [(b, b, false), (allUp, allUp, false)]

/-- Button trace reaching a state that is both asleep and in alignment
mode: toggle sleep with a `Z` press, let one idle second pass (which
sets `FactoryResetDisable`), then hold `+`/`-` across three 1 Hz
ticks. -/
def c5Trace : List (Buttons × Buttons × Bool) :=
  [(comboTimeSet, comboTimeSet, false), (allUp, allUp, false),
   (allUp, allUp, true),
   (comboAlign, comboAlign, false),
   (comboAlign, comboAlign, true), (comboAlign, comboAlign, true),
   (comboAlign, comboAlign, true)]

/-- The state reached by `c5Trace`. -/
def c5State : ClockState := runTrace c5Trace initState

/-- Button trace reaching `timeNow = 43200`: enter time-setting mode by
holding `Z` across three ticks (timeNow becomes 3), cycle to the
seconds sub-state, press `-` three times (timeNow 0, sub-state 4),
cycle back to the hours sub-state, then press `+` twelve times; the
twelfth `+` leaves `timeNow + 3600 = 43200`, which the guard
`if (timeNow > 43200)` does not wrap. -/
def c1Trace : List (Buttons × Buttons × Bool) :=
  [(comboTimeSet, comboTimeSet, false),
   (comboTimeSet, comboTimeSet, true), (comboTimeSet, comboTimeSet, true),
   (comboTimeSet, comboTimeSet, true),
   (allUp, allUp, false)] ++
  pr comboTimeSet ++ pr comboTimeSet ++
  pr minusDown ++ pr minusDown ++ pr minusDown ++
  pr comboTimeSet ++
  (List.replicate 12 (pr plusDown)).flatten

/-- The state reached by `c1Trace`. -/
def c1State : ClockState := runTrace c1Trace initState

/-- Extension of `c1Trace` reaching `timeNow = 43199` with the clock not
halted (`SettingTime = 1`): cycle to seconds, press `-` once (43199,
sub-state 4), then cycle `Z` once more (4 → 5 → wraps to 1). -/
def c2Trace : List (Buttons × Buttons × Bool) :=
  c1Trace ++ pr comboTimeSet ++ pr comboTimeSet ++ pr minusDown ++
  pr comboTimeSet

/-- The state reached by `c2Trace`. -/
def c2State : ClockState := runTrace c2Trace initState

/-- One loop iteration in which the 1 Hz branch runs while the
combination `c` is held (both PIND samples read `c`). -/
def holdTick (c : Buttons) (s : ClockState) : ClockState := loopIter c c true s

/-- The idle base state for the hold scenarios: one buttons-up 1 Hz
iteration after power-on (so the hold counters are reset and
`FactoryResetDisable` is set, as in steady operation). -/
def c6Base : ClockState := loopIter allUp allUp true initState

/-- State after pressing combination `c` and holding it across `n`
consecutive 1 Hz ticks, starting from the idle base state. -/
def c6Held (c : Buttons) (n : Nat) : ClockState :=
  (holdTick c)^[n] (loopIter c c false c6Base)

/-- State after releasing all buttons following `c6Held c n`. -/
def c6Release (c : Buttons) (n : Nat) : ClockState :=
  loopIter allUp allUp false (c6Held c n)

/-- Closed form of the control state while the `+`/`-` alignment
combination stays held: `n` ticks after the mode fired, only the 8-bit
hold counter and the clock time have moved. -/
def c6AlignCtrl (n : Nat) : Ctrl :=
  { timeNow := 4 + (n : Int),
    settings := ⟨8, 63, 63, 63, 0, 1⟩,
    SleepMode := 0, VCRmode := 0, FactoryResetDisable := 1,
    SettingTime := 0, AlignMode := 1, OptionMode := 0,
    HoldTimeSet := 0, HoldOption := 0, HoldAlign := (3 + n) % 256,
    MomentaryOverridePlus := 1, MomentaryOverrideMinus := 1,
    MomentaryOverrideZ := 0,
    TimeSinceButton := 0, LastSavedBrightness := 8,
    PINDLast := comboAlign, ExtRTC := 0, UpdateRTC := 1,
    ee := ⟨255, 255, 255, 255, 255, 255⟩ }

/-- Closed form of the control state while the `+`/`Z` option
combination stays held. -/
def c6OptionCtrl (n : Nat) : Ctrl :=
  { timeNow := 4 + (n : Int),
    settings := ⟨8, 63, 63, 63, 0, 1⟩,
    SleepMode := 0, VCRmode := 0, FactoryResetDisable := 1,
    SettingTime := 0, AlignMode := 0, OptionMode := 1,
    HoldTimeSet := 0, HoldOption := (3 + n) % 256, HoldAlign := 0,
    MomentaryOverridePlus := 1, MomentaryOverrideMinus := 0,
    MomentaryOverrideZ := 1,
    TimeSinceButton := 0, LastSavedBrightness := 8,
    PINDLast := comboOption, ExtRTC := 0, UpdateRTC := 1,
    ee := ⟨255, 255, 255, 255, 255, 255⟩ }

/-- Closed form of the control state while `Z` alone stays held. -/
def c6TimeSetCtrl (n : Nat) : Ctrl :=
  { timeNow := 4 + (n : Int),
    settings := ⟨8, 63, 63, 63, 0, 1⟩,
    SleepMode := 0, VCRmode := 0, FactoryResetDisable := 1,
    SettingTime := 1, AlignMode := 0, OptionMode := 0,
    HoldTimeSet := (3 + n) % 256, HoldOption := 0, HoldAlign := 0,
    MomentaryOverridePlus := 0, MomentaryOverrideMinus := 0,
    MomentaryOverrideZ := 1,
    TimeSinceButton := 0, LastSavedBrightness := 8,
    PINDLast := comboTimeSet, ExtRTC := 0, UpdateRTC := 1,
    ee := ⟨255, 255, 255, 255, 255, 255⟩ }


/-- Claim C3 (code bug): the slot dwell values do not match the
documented `channelBrightness * fadeWeight * globalBrightness / 128`
with a `+1` minimum-nonzero bias.  Revision 1 divides by 256 (the C
shift `>> 7 + 1` parses as `>> (7 + 1)`), so at full brightness
`63*63*8` it yields 124 where its own comment promises `/128` (248)
plus the `+1`; revision 2 divides by 128 but has no bias, so nonzero
inputs can yield a zero dwell in both revisions. -/
theorem c3_dwell_divergence :
    dwellRev1 63 63 8 = 124 ∧ dwellClaimed 63 63 8 = 249 ∧
    63 * 63 * 8 / 128 = 248 ∧ dwellRev2 63 63 8 = 248 ∧
    dwellRev1 63 1 1 = 0 ∧ dwellRev2 1 1 1 = 0 := by
  decide

/-- Claim C4 (code bug): `EEReadSettings` accepts the out-of-range fade
mode 10 (it only flags the stored value 255, as its own TODO comment
admits), and a stored `MainBright` of 0 is repaired to 1 on its own
instead of triggering the wholesale factory defaults (`HourBright`
keeps the stored 20 rather than the default 63). -/
theorem c4_load_divergence :
    (eeReadSettings ⟨8, 63, 63, 63, 0, 10⟩ applyDefaults).FadeMode = 10 ∧
    ¬ (eeReadSettings ⟨8, 63, 63, 63, 0, 10⟩ applyDefaults).FadeMode ≤ 4 ∧
    eeReadSettings ⟨0, 20, 63, 63, 0, 1⟩ applyDefaults =
      ⟨1, 20, 63, 63, 0, 1⟩ ∧
    applyDefaults.HourBright = 63 := by
  decide

/-- Claim C10: the two revisions of `NormalTimeDisplay` compute
identical `(HrDisp, HrNext, MinDisp, MinNext, SecDisp, SecNext)`
six-tuples for every `timeNow ∈ [0, 43200)` and identical `FadeMode`
and `SettingTime`. -/
theorem c10_ntd_equiv (fadeMode settingTime t : Nat) (ht : t < 43200) :
    normalTimeDisplayRev1 fadeMode settingTime t =
      normalTimeDisplayRev2 fadeMode settingTime t := by
  have e1 : (t - t / 3600 * 3600) / 60 = t / 60 % 60 := by omega
  have e2 : t - t / 3600 * 3600 - (t - t / 3600 * 3600) / 60 * 60 = t % 60 := by
    omega
  simp only [normalTimeDisplayRev1, normalTimeDisplayRev2, Nat.shiftRight_one,
    Prod.mk.injEq]
  rw [e2, e1]
  refine ⟨?_, ?_, ?_, ?_, ?_, ?_⟩ <;> first | rfl | (split_ifs <;> omega)

/-- Witness for C10 at the documented scenario `timeNow = 3600`. -/
theorem c10_ntd_equiv_witness :
    normalTimeDisplayRev1 1 0 3600 = normalTimeDisplayRev2 1 0 3600 :=
  c10_ntd_equiv 1 0 3600 (by decide)

/-- Claim C9: under the continuous-logarithmic fade policy every
`FadeConv` index computed by `NormalFades` — `msNow/10` with `msNow`
extended by 1000 on odd seconds, `SecNow*5/3` with `SecNow` extended by
60 on odd minutes, and `MinNow*10/3` — stays inside both revisions'
201-entry tables, for every `timeNow ∈ [0, 43200]` and every
within-second millisecond count `msNow ≤ 999`. -/
theorem c9_fadeconv_bounds (t ms : Nat) (ht : t ≤ 43200) (hms : ms ≤ 999) :
    secFadeIdx (secNowOf t) ms < FadeConvRev1.length ∧
    minFadeIdx (minNowOf t) (secNowOf t) < FadeConvRev1.length ∧
    hrFadeIdx (minNowOf t) < FadeConvRev1.length ∧
    secFadeIdx (secNowOf t) ms < FadeConvRev2.length ∧
    minFadeIdx (minNowOf t) (secNowOf t) < FadeConvRev2.length ∧
    hrFadeIdx (minNowOf t) < FadeConvRev2.length := by
  have hlen1 : FadeConvRev1.length = 201 := rfl
  have hlen2 : FadeConvRev2.length = 201 := rfl
  have hsecb : secNowOf t ≤ 59 := by unfold secNowOf; omega
  have hminb : minNowOf t ≤ 59 := by unfold minNowOf; omega
  unfold secFadeIdx minFadeIdx hrFadeIdx msExt secExt
  rw [hlen1, hlen2]
  refine ⟨?_, ?_, ?_, ?_, ?_, ?_⟩ <;> first | omega | (split_ifs <;> omega)

/-- Witness for C9 at one second before the hour beat. -/
theorem c9_fadeconv_bounds_witness :
    secFadeIdx (secNowOf 3599) 999 < FadeConvRev1.length ∧
    minFadeIdx (minNowOf 3599) (secNowOf 3599) < FadeConvRev1.length ∧
    hrFadeIdx (minNowOf 3599) < FadeConvRev1.length ∧
    secFadeIdx (secNowOf 3599) 999 < FadeConvRev2.length ∧
    minFadeIdx (minNowOf 3599) (secNowOf 3599) < FadeConvRev2.length ∧
    hrFadeIdx (minNowOf 3599) < FadeConvRev2.length :=
  c9_fadeconv_bounds 3599 999 (by decide) (by decide)

/-- Claim C8: `RTCgetTime` overwrites `timeNow` only when the
discrepancy from the RTC-derived time exceeds 2 seconds, always accepts
the first successful read after power-on (`UpdateRTC` set), and skips
the correction entirely whenever the decoded minutes register is zero,
except on that first read. -/
theorem c8_rtc_policy (rawSec rawMin rawHour : Nat) (t : Int) (u : Bool) :
    (u = true → rtcGetUpdate rawSec rawMin rawHour t u =
      ((rtcDerivedTime rawSec rawMin rawHour : Int), false)) ∧
    (u = false → bcdDecode rawMin = 0 →
      rtcGetUpdate rawSec rawMin rawHour t u = (t, false)) ∧
    (u = false →
      ((rtcDerivedTime rawSec rawMin rawHour : Int) - t).natAbs ≤ 2 →
      rtcGetUpdate rawSec rawMin rawHour t u = (t, false)) ∧
    (bcdDecode rawMin ≠ 0 →
      ((rtcDerivedTime rawSec rawMin rawHour : Int) - t).natAbs > 2 →
      rtcGetUpdate rawSec rawMin rawHour t u =
        ((rtcDerivedTime rawSec rawMin rawHour : Int), false)) ∧
    ((rtcGetUpdate rawSec rawMin rawHour t u).1 ≠ t →
      u = true ∨ (bcdDecode rawMin ≠ 0 ∧
        ((rtcDerivedTime rawSec rawMin rawHour : Int) - t).natAbs > 2)) := by
  have hcore : rtcGetUpdate rawSec rawMin rawHour t u =
      (if (bcdDecode rawMin ≠ 0 ∧
            2 < ((rtcDerivedTime rawSec rawMin rawHour : Int) - t).natAbs) ∨
          u = true
       then ((rtcDerivedTime rawSec rawMin rawHour : Int), false)
       else (t, u)) := by
    unfold rtcGetUpdate
    by_cases hm : bcdDecode rawMin ≠ 0 ∧
        2 < ((rtcDerivedTime rawSec rawMin rawHour : Int) - t).natAbs <;>
      cases u <;> simp [hm]
  rw [hcore]
  by_cases hm : bcdDecode rawMin ≠ 0 ∧
      2 < ((rtcDerivedTime rawSec rawMin rawHour : Int) - t).natAbs <;>
    cases u <;> simp [hm] <;> tauto

/-- Witness for C8: a discrepant 12:00:00 read with the minutes register
zero is ignored after the first read, while the very first read of
01:05:00 is accepted. -/
theorem c8_rtc_policy_witness :
    rtcGetUpdate 0 0 18 5000 false = (5000, false) ∧
    rtcGetUpdate 0 5 1 100 true = (3900, false) := by
  constructor
  · exact (c8_rtc_policy 0 0 18 5000 false).2.1 rfl (by decide)
  · have h := (c8_rtc_policy 0 5 1 100 true).1 rfl
    simpa using h

/-- Claim C7: `EEUpdate` writes a byte only when the stored value
differs, and with in-range stored settings (`MainBright ∈ [1,8]`,
channel brightness ≤ 63, direction flag ≤ 1, fade byte ≠ 255) a save
immediately after a load issues no EEPROM writes at all. -/
theorem c7_save_load_noop (e : EEBytes) (p : Settings)
    (h0a : 1 ≤ e.e0) (h0b : e.e0 ≤ 8) (h1 : e.e1 ≤ 63) (h2 : e.e2 ≤ 63)
    (h3 : e.e3 ≤ 63) (h4 : e.e4 ≤ 1) (h5 : e.e5 ≠ 255) :
    (∀ loc val, eeRead e loc = val → eeUpdate e loc val = (e, 0)) ∧
    eeReadSettings e p = ⟨e.e0, e.e1, e.e2, e.e3, e.e4, e.e5⟩ ∧
    eeSaveBytes (eeReadSettings e p) e = (e, 0) := by
  have hread : eeReadSettings e p = ⟨e.e0, e.e1, e.e2, e.e3, e.e4, e.e5⟩ := by
    simp only [eeReadSettings, eeRead]
    split_ifs <;> first | rfl | omega
  refine ⟨?_, hread, ?_⟩
  · intro loc val h
    unfold eeUpdate
    rw [if_neg (by simp [h])]
  · rw [hread]
    simp [eeSaveBytes, eeUpdate, eeRead]

/-- Witness for C7 at a typical in-range EEPROM image. -/
theorem c7_save_load_noop_witness :
    eeSaveBytes (eeReadSettings ⟨8, 20, 63, 63, 0, 1⟩ applyDefaults)
      ⟨8, 20, 63, 63, 0, 1⟩ = (⟨8, 20, 63, 63, 0, 1⟩, 0) :=
  (c7_save_load_noop ⟨8, 20, 63, 63, 0, 1⟩ applyDefaults (by decide)
    (by decide) (by decide) (by decide) (by decide) (by decide)
    (by decide)).2.2

theorem reachable_runTrace (steps : List (Buttons × Buttons × Bool))
    (s : ClockState) (h : Reachable s) : Reachable (runTrace steps s) := by
  induction steps generalizing s with
  | nil => exact h
  | cons p rest ih => exact ih _ (Reachable.step p.1 p.2.1 p.2.2 h)

theorem settingAdjustPlus_snd (st : Nat) (t : Int) :
    (settingAdjustPlus st t).2 = if st > 2 then 3 else st := rfl

theorem settingAdjustMinus_snd (st : Nat) (t : Int) :
    (settingAdjustMinus st t).2 = if st > 2 then 4 else st := rfl

theorem settingAdjustPlus_bounds (st : Nat) (t : Int)
    (h : 0 ≤ t ∧ t ≤ 43200) :
    0 ≤ (settingAdjustPlus st t).1 ∧ (settingAdjustPlus st t).1 ≤ 43200 := by
  unfold settingAdjustPlus
  dsimp only
  split_ifs <;> omega

theorem settingAdjustMinus_bounds (st : Nat) (t : Int)
    (h : 0 ≤ t ∧ t ≤ 43200) :
    0 ≤ (settingAdjustMinus st t).1 ∧ (settingAdjustMinus st t).1 ≤ 43200 := by
  unfold settingAdjustMinus
  dsimp only
  split_ifs <;> omega

theorem loopIter_false (b1 b2 : Buttons) (s : ClockState) :
    loopIter b1 b2 false s =
      (if s.AlignMode + s.SettingTime + s.OptionMode ≠ 0 ∨
          (false = true ∧ (checkButtons b1 s).SettingTime < 4) then
        displayUpdate (checkButtons b1 s)
      else checkButtons b1 s) := rfl

theorem loopIter_true (b1 b2 : Buttons) (s : ClockState) :
    loopIter b1 b2 true s =
      (if s.AlignMode + s.SettingTime + s.OptionMode ≠ 0 ∨
          (true = true ∧
            (checkHeld b2 (checkButtons b1 s)).SettingTime < 4) then
        displayUpdate (tickStep (checkHeld b2 (checkButtons b1 s)))
      else tickStep (checkHeld b2 (checkButtons b1 s))) := rfl

theorem ctrl_displayUpdate (s : ClockState) :
    ctrlOf (displayUpdate s) = ctrlOf s := by
  unfold displayUpdate alignDisplayS optionDisplayS
  dsimp only
  split_ifs <;> rfl

theorem timeNow_displayUpdate (s : ClockState) :
    (displayUpdate s).timeNow = s.timeNow := by
  simpa using congrArg Ctrl.timeNow (ctrl_displayUpdate s)

theorem alignMode_displayUpdate (s : ClockState) :
    (displayUpdate s).AlignMode = s.AlignMode := by
  simpa using congrArg Ctrl.AlignMode (ctrl_displayUpdate s)

theorem optionMode_displayUpdate (s : ClockState) :
    (displayUpdate s).OptionMode = s.OptionMode := by
  simpa using congrArg Ctrl.OptionMode (ctrl_displayUpdate s)

theorem settingTime_displayUpdate (s : ClockState) :
    (displayUpdate s).SettingTime = s.SettingTime := by
  simpa using congrArg Ctrl.SettingTime (ctrl_displayUpdate s)

theorem inv1_plusBlock (b : Buttons) (s : ClockState)
    (h : (s.AlignMode = 0 ∨ s.OptionMode = 0) ∧
         (s.AlignMode = 0 ∨ s.SettingTime = 0) ∧
         (s.OptionMode = 0 ∨ s.SettingTime = 0)) :
    ((plusBlock b s).AlignMode = 0 ∨ (plusBlock b s).OptionMode = 0) ∧
    ((plusBlock b s).AlignMode = 0 ∨ (plusBlock b s).SettingTime = 0) ∧
    ((plusBlock b s).OptionMode = 0 ∨ (plusBlock b s).SettingTime = 0) := by
  unfold plusBlock
  split_ifs <;> (try rw [settingAdjustPlus_snd]) <;> (try dsimp only) <;> omega

theorem inv1_minusBlock (b : Buttons) (s : ClockState)
    (h : (s.AlignMode = 0 ∨ s.OptionMode = 0) ∧
         (s.AlignMode = 0 ∨ s.SettingTime = 0) ∧
         (s.OptionMode = 0 ∨ s.SettingTime = 0)) :
    ((minusBlock b s).AlignMode = 0 ∨ (minusBlock b s).OptionMode = 0) ∧
    ((minusBlock b s).AlignMode = 0 ∨ (minusBlock b s).SettingTime = 0) ∧
    ((minusBlock b s).OptionMode = 0 ∨ (minusBlock b s).SettingTime = 0) := by
  unfold minusBlock
  split_ifs <;> (try rw [settingAdjustMinus_snd]) <;> (try dsimp only) <;> omega

theorem inv1_zBlock (b : Buttons) (s : ClockState)
    (h : (s.AlignMode = 0 ∨ s.OptionMode = 0) ∧
         (s.AlignMode = 0 ∨ s.SettingTime = 0) ∧
         (s.OptionMode = 0 ∨ s.SettingTime = 0)) :
    ((zBlock b s).AlignMode = 0 ∨ (zBlock b s).OptionMode = 0) ∧
    ((zBlock b s).AlignMode = 0 ∨ (zBlock b s).SettingTime = 0) ∧
    ((zBlock b s).OptionMode = 0 ∨ (zBlock b s).SettingTime = 0) := by
  unfold zBlock
  split_ifs <;> (try dsimp only) <;> omega

theorem inv1_checkButtons (b : Buttons) (s : ClockState)
    (h : (s.AlignMode = 0 ∨ s.OptionMode = 0) ∧
         (s.AlignMode = 0 ∨ s.SettingTime = 0) ∧
         (s.OptionMode = 0 ∨ s.SettingTime = 0)) :
    ((checkButtons b s).AlignMode = 0 ∨ (checkButtons b s).OptionMode = 0) ∧
    ((checkButtons b s).AlignMode = 0 ∨ (checkButtons b s).SettingTime = 0) ∧
    ((checkButtons b s).OptionMode = 0 ∨ (checkButtons b s).SettingTime = 0) := by
  unfold checkButtons
  split_ifs with hb
  · exact inv1_zBlock b _ (inv1_minusBlock b _ (inv1_plusBlock b _ h))
  · exact h

theorem inv1_holdCount (b : Buttons) (s : ClockState)
    (h : (s.AlignMode = 0 ∨ s.OptionMode = 0) ∧
         (s.AlignMode = 0 ∨ s.SettingTime = 0) ∧
         (s.OptionMode = 0 ∨ s.SettingTime = 0)) :
    ((holdCount b s).AlignMode = 0 ∨ (holdCount b s).OptionMode = 0) ∧
    ((holdCount b s).AlignMode = 0 ∨ (holdCount b s).SettingTime = 0) ∧
    ((holdCount b s).OptionMode = 0 ∨ (holdCount b s).SettingTime = 0) := by
  unfold holdCount eeSaveSettingsS
  split_ifs <;> (try dsimp only) <;> omega

theorem inv1_fireAlign (s : ClockState)
    (h : (s.AlignMode = 0 ∨ s.OptionMode = 0) ∧
         (s.AlignMode = 0 ∨ s.SettingTime = 0) ∧
         (s.OptionMode = 0 ∨ s.SettingTime = 0)) :
    ((fireAlign s).AlignMode = 0 ∨ (fireAlign s).OptionMode = 0) ∧
    ((fireAlign s).AlignMode = 0 ∨ (fireAlign s).SettingTime = 0) ∧
    ((fireAlign s).OptionMode = 0 ∨ (fireAlign s).SettingTime = 0) := by
  unfold fireAlign eeSaveSettingsS applyDefaultsS
  split_ifs <;> (try dsimp only) <;> omega

theorem inv1_fireOption (s : ClockState)
    (h : (s.AlignMode = 0 ∨ s.OptionMode = 0) ∧
         (s.AlignMode = 0 ∨ s.SettingTime = 0) ∧
         (s.OptionMode = 0 ∨ s.SettingTime = 0)) :
    ((fireOption s).AlignMode = 0 ∨ (fireOption s).OptionMode = 0) ∧
    ((fireOption s).AlignMode = 0 ∨ (fireOption s).SettingTime = 0) ∧
    ((fireOption s).OptionMode = 0 ∨ (fireOption s).SettingTime = 0) := by
  unfold fireOption eeSaveSettingsS
  split_ifs <;> (try dsimp only) <;> omega

theorem inv1_fireTimeSet (s : ClockState)
    (h : (s.AlignMode = 0 ∨ s.OptionMode = 0) ∧
         (s.AlignMode = 0 ∨ s.SettingTime = 0) ∧
         (s.OptionMode = 0 ∨ s.SettingTime = 0)) :
    ((fireTimeSet s).AlignMode = 0 ∨ (fireTimeSet s).OptionMode = 0) ∧
    ((fireTimeSet s).AlignMode = 0 ∨ (fireTimeSet s).SettingTime = 0) ∧
    ((fireTimeSet s).OptionMode = 0 ∨ (fireTimeSet s).SettingTime = 0) := by
  unfold fireTimeSet eeSaveSettingsS
  split_ifs <;> (try dsimp only) <;> omega

theorem inv1_checkHeld (b : Buttons) (s : ClockState)
    (h : (s.AlignMode = 0 ∨ s.OptionMode = 0) ∧
         (s.AlignMode = 0 ∨ s.SettingTime = 0) ∧
         (s.OptionMode = 0 ∨ s.SettingTime = 0)) :
    ((checkHeld b s).AlignMode = 0 ∨ (checkHeld b s).OptionMode = 0) ∧
    ((checkHeld b s).AlignMode = 0 ∨ (checkHeld b s).SettingTime = 0) ∧
    ((checkHeld b s).OptionMode = 0 ∨ (checkHeld b s).SettingTime = 0) := by
  unfold checkHeld
  exact inv1_fireTimeSet _ (inv1_fireOption _ (inv1_fireAlign _
    (inv1_holdCount b s h)))

theorem inv1_tickStep (s : ClockState)
    (h : (s.AlignMode = 0 ∨ s.OptionMode = 0) ∧
         (s.AlignMode = 0 ∨ s.SettingTime = 0) ∧
         (s.OptionMode = 0 ∨ s.SettingTime = 0)) :
    ((tickStep s).AlignMode = 0 ∨ (tickStep s).OptionMode = 0) ∧
    ((tickStep s).AlignMode = 0 ∨ (tickStep s).SettingTime = 0) ∧
    ((tickStep s).OptionMode = 0 ∨ (tickStep s).SettingTime = 0) := by
  unfold tickStep
  split_ifs <;> (try dsimp only) <;> omega

theorem inv1_displayUpdate (s : ClockState)
    (h : (s.AlignMode = 0 ∨ s.OptionMode = 0) ∧
         (s.AlignMode = 0 ∨ s.SettingTime = 0) ∧
         (s.OptionMode = 0 ∨ s.SettingTime = 0)) :
    ((displayUpdate s).AlignMode = 0 ∨ (displayUpdate s).OptionMode = 0) ∧
    ((displayUpdate s).AlignMode = 0 ∨ (displayUpdate s).SettingTime = 0) ∧
    ((displayUpdate s).OptionMode = 0 ∨ (displayUpdate s).SettingTime = 0) := by
  rw [alignMode_displayUpdate, optionMode_displayUpdate,
    settingTime_displayUpdate]
  exact h

theorem inv1_loopIter (b1 b2 : Buttons) (second : Bool) (s : ClockState)
    (h : (s.AlignMode = 0 ∨ s.OptionMode = 0) ∧
         (s.AlignMode = 0 ∨ s.SettingTime = 0) ∧
         (s.OptionMode = 0 ∨ s.SettingTime = 0)) :
    ((loopIter b1 b2 second s).AlignMode = 0 ∨
      (loopIter b1 b2 second s).OptionMode = 0) ∧
    ((loopIter b1 b2 second s).AlignMode = 0 ∨
      (loopIter b1 b2 second s).SettingTime = 0) ∧
    ((loopIter b1 b2 second s).OptionMode = 0 ∨
      (loopIter b1 b2 second s).SettingTime = 0) := by
  cases second with
  | false =>
    rw [loopIter_false]
    simp only [Bool.false_eq_true, false_and, or_false]
    split_ifs
    · exact inv1_displayUpdate _ (inv1_checkButtons _ _ h)
    · exact inv1_checkButtons _ _ h
  | true =>
    rw [loopIter_true]
    simp only [eq_self_iff_true, true_and]
    split_ifs
    · exact inv1_displayUpdate _
        (inv1_tickStep _ (inv1_checkHeld _ _ (inv1_checkButtons _ _ h)))
    · exact inv1_tickStep _ (inv1_checkHeld _ _ (inv1_checkButtons _ _ h))

theorem timeNow_zBlock (b : Buttons) (s : ClockState) :
    (zBlock b s).timeNow = s.timeNow := by
  unfold zBlock
  split_ifs <;> rfl

theorem timeNow_holdCount (b : Buttons) (s : ClockState) :
    (holdCount b s).timeNow = s.timeNow := by
  unfold holdCount eeSaveSettingsS
  split_ifs <;> rfl

theorem timeNow_fireAlign (s : ClockState) :
    (fireAlign s).timeNow = s.timeNow := by
  unfold fireAlign eeSaveSettingsS applyDefaultsS
  split_ifs <;> rfl

theorem timeNow_fireOption (s : ClockState) :
    (fireOption s).timeNow = s.timeNow := by
  unfold fireOption eeSaveSettingsS
  split_ifs <;> rfl

theorem timeNow_fireTimeSet (s : ClockState) :
    (fireTimeSet s).timeNow = s.timeNow := by
  unfold fireTimeSet eeSaveSettingsS
  split_ifs <;> rfl

theorem timeNow_checkHeld (b : Buttons) (s : ClockState) :
    (checkHeld b s).timeNow = s.timeNow := by
  unfold checkHeld
  rw [timeNow_fireTimeSet, timeNow_fireOption, timeNow_fireAlign,
    timeNow_holdCount]

theorem tb_plusBlock (b : Buttons) (s : ClockState)
    (h : 0 ≤ s.timeNow ∧ s.timeNow ≤ 43200) :
    0 ≤ (plusBlock b s).timeNow ∧ (plusBlock b s).timeNow ≤ 43200 := by
  unfold plusBlock
  split_ifs <;> (try dsimp only) <;>
    first
      | exact settingAdjustPlus_bounds _ _ h
      | omega

theorem tb_minusBlock (b : Buttons) (s : ClockState)
    (h : 0 ≤ s.timeNow ∧ s.timeNow ≤ 43200) :
    0 ≤ (minusBlock b s).timeNow ∧ (minusBlock b s).timeNow ≤ 43200 := by
  unfold minusBlock
  split_ifs <;> (try dsimp only) <;>
    first
      | exact settingAdjustMinus_bounds _ _ h
      | omega

theorem tb_checkButtons (b : Buttons) (s : ClockState)
    (h : 0 ≤ s.timeNow ∧ s.timeNow ≤ 43200) :
    0 ≤ (checkButtons b s).timeNow ∧ (checkButtons b s).timeNow ≤ 43200 := by
  unfold checkButtons
  split_ifs with hb
  · have h2 := tb_minusBlock b _ (tb_plusBlock b
      { s with VCRmode := 0, TimeSinceButton := 0 } h)
    have h3 := timeNow_zBlock b (minusBlock b (plusBlock b
      { s with VCRmode := 0, TimeSinceButton := 0 }))
    refine ⟨?_, ?_⟩ <;> dsimp only <;> rw [h3]
    · exact h2.1
    · exact h2.2
  · exact h

theorem tb_checkHeld (b : Buttons) (s : ClockState)
    (h : 0 ≤ s.timeNow ∧ s.timeNow ≤ 43200) :
    0 ≤ (checkHeld b s).timeNow ∧ (checkHeld b s).timeNow ≤ 43200 := by
  rw [timeNow_checkHeld]
  exact h

theorem tb_tickStep (s : ClockState)
    (h : 0 ≤ s.timeNow ∧ s.timeNow ≤ 43200) :
    0 ≤ (tickStep s).timeNow ∧ (tickStep s).timeNow ≤ 43200 := by
  unfold tickStep
  split_ifs <;> (try dsimp only) <;> omega

theorem tb_displayUpdate (s : ClockState)
    (h : 0 ≤ s.timeNow ∧ s.timeNow ≤ 43200) :
    0 ≤ (displayUpdate s).timeNow ∧ (displayUpdate s).timeNow ≤ 43200 := by
  rw [timeNow_displayUpdate]
  exact h

theorem tb_loopIter (b1 b2 : Buttons) (second : Bool) (s : ClockState)
    (h : 0 ≤ s.timeNow ∧ s.timeNow ≤ 43200) :
    0 ≤ (loopIter b1 b2 second s).timeNow ∧
      (loopIter b1 b2 second s).timeNow ≤ 43200 := by
  cases second with
  | false =>
    rw [loopIter_false]
    simp only [Bool.false_eq_true, false_and, or_false]
    split_ifs
    · exact tb_displayUpdate _ (tb_checkButtons _ _ h)
    · exact tb_checkButtons _ _ h
  | true =>
    rw [loopIter_true]
    simp only [eq_self_iff_true, true_and]
    split_ifs
    · exact tb_displayUpdate _
        (tb_tickStep _ (tb_checkHeld _ _ (tb_checkButtons _ _ h)))
    · exact tb_tickStep _ (tb_checkHeld _ _ (tb_checkButtons _ _ h))

/-- Claim C5 (amended): in every reachable state at most one of
`AlignMode`, `OptionMode`, `SettingTime` is nonzero.  (The second half
of the original claim — that `SleepMode` is never active simultaneously
with them — is refuted by `c5_sleep_align_overlap`.) -/
theorem c5_mode_exclusion (s : ClockState) (h : Reachable s) :
    (s.AlignMode = 0 ∨ s.OptionMode = 0) ∧
    (s.AlignMode = 0 ∨ s.SettingTime = 0) ∧
    (s.OptionMode = 0 ∨ s.SettingTime = 0) := by
  induction h with
  | init => exact ⟨Or.inl rfl, Or.inl rfl, Or.inl rfl⟩
  | step b1 b2 second hs ih => exact inv1_loopIter _ _ _ _ ih

/-- Witness for C5 at the power-on state. -/
theorem c5_mode_exclusion_witness :
    (initState.AlignMode = 0 ∨ initState.OptionMode = 0) ∧
    (initState.AlignMode = 0 ∨ initState.SettingTime = 0) ∧
    (initState.OptionMode = 0 ∨ initState.SettingTime = 0) :=
  c5_mode_exclusion initState Reachable.init

set_option maxRecDepth 20000 in
/-- Counterexample to claim C5 as stated: toggling sleep and then
holding `+`/`-` for three ticks reaches a state that is simultaneously
asleep and in alignment mode. -/
theorem c5_sleep_align_overlap :
    Reachable c5State ∧ c5State.SleepMode ≠ 0 ∧ c5State.AlignMode ≠ 0 :=
  ⟨reachable_runTrace c5Trace initState Reachable.init, by decide, by decide⟩

/-- Claim C1 (amended): every reachable `timeNow` lies in the closed
interval `[0, 43200]`; the boundary value 43200 itself is reachable
(`c1_overflow_reachable`), because both the tick and the `+`-adjustments
wrap only when `timeNow` exceeds 43200. -/
theorem c1_time_bounds (s : ClockState) (h : Reachable s) :
    0 ≤ s.timeNow ∧ s.timeNow ≤ 43200 := by
  induction h with
  | init => exact ⟨le_refl 0, by decide⟩
  | step b1 b2 second hs ih => exact tb_loopIter _ _ _ _ ih

/-- Witness for C1 at the power-on state. -/
theorem c1_time_bounds_witness :
    0 ≤ initState.timeNow ∧ initState.timeNow ≤ 43200 :=
  c1_time_bounds initState Reachable.init

set_option maxRecDepth 100000 in
/-- Counterexample to claim C1 as stated: a reachable state whose
`timeNow`, produced by a `+`-hour adjustment in time-setting mode, is
exactly 43200 and hence outside `[0, 43200)`. -/
theorem c1_overflow_reachable :
    Reachable c1State ∧ c1State.timeNow = 43200 ∧
    ¬ c1State.timeNow < 43200 :=
  ⟨reachable_runTrace c1Trace initState Reachable.init, by decide, by decide⟩

/-- Claim C2 (amended): within the reachable range `[0, 43200]` the
once-per-second tick advances `timeNow` by exactly one second modulo
43200 whenever `SettingTime ≠ 4` (the stored representative transiently
takes the value 43200 in place of 0), and leaves the state entirely
unchanged when `SettingTime = 4`. -/
theorem c2_tick_behaviour (s : ClockState) (h0 : 0 ≤ s.timeNow)
    (h1 : s.timeNow ≤ 43200) (h2 : s.SettingTime ≤ 4) :
    (s.SettingTime = 4 → tickStep s = s) ∧
    (s.SettingTime ≠ 4 →
      (tickStep s).timeNow % 43200 = (s.timeNow + 1) % 43200 ∧
      0 ≤ (tickStep s).timeNow ∧ (tickStep s).timeNow ≤ 43200) := by
  constructor
  · intro h4
    unfold tickStep
    rw [if_neg (show ¬ s.SettingTime < 4 by omega)]
  · intro h4
    unfold tickStep
    rw [if_pos (show s.SettingTime < 4 by omega)]
    refine ⟨?_, ?_, ?_⟩ <;> dsimp only <;> split_ifs <;> omega

/-- Witness for C2 at the power-on state. -/
theorem c2_tick_behaviour_witness :
    (tickStep initState).timeNow % 43200 = (initState.timeNow + 1) % 43200 :=
  ((c2_tick_behaviour initState (by decide) (by decide) (by decide)).2 (by decide)).1

set_option maxRecDepth 100000 in
/-- Counterexample to claim C2 as stated: a reachable state with
`timeNow = 43199` and the clock not halted, where the tick produces
43200 rather than `(43199 + 1) % 43200 = 0`. -/
theorem c2_tick_no_wraparound :
    Reachable c2State ∧ c2State.SettingTime ≠ 4 ∧
    c2State.timeNow = 43199 ∧
    (tickStep c2State).timeNow ≠ (c2State.timeNow + 1) % 43200 :=
  ⟨reachable_runTrace c2Trace initState Reachable.init, by decide, by decide,
    by decide⟩

theorem checkButtons_same (b : Buttons) (s : ClockState)
    (h : s.PINDLast = b) : checkButtons b s = s := by
  subst h
  unfold checkButtons
  rw [if_neg (by simp)]

theorem tickStep_no_wrap (s : ClockState) (h1 : s.SettingTime < 4)
    (h2 : s.timeNow + 1 ≤ 43200) :
    tickStep s = { s with timeNow := s.timeNow + 1 } := by
  unfold tickStep
  rw [if_pos h1, if_neg (by omega)]

theorem holdCount_align (s : ClockState) :
    holdCount comboAlign s =
      { s with HoldAlign := (s.HoldAlign + 1) % 256, HoldOption := 0,
               HoldTimeSet := 0 } := by
  unfold holdCount
  rw [if_neg (by decide), if_pos rfl]

theorem holdCount_option (s : ClockState) :
    holdCount comboOption s =
      { s with HoldOption := (s.HoldOption + 1) % 256, HoldTimeSet := 0,
               HoldAlign := 0 } := by
  unfold holdCount
  rw [if_neg (by decide), if_neg (by decide), if_pos rfl]

theorem holdCount_timeset (s : ClockState) :
    holdCount comboTimeSet s =
      { s with HoldTimeSet := (s.HoldTimeSet + 1) % 256, HoldOption := 0,
               HoldAlign := 0 } := by
  unfold holdCount
  rw [if_neg (by decide), if_neg (by decide), if_neg (by decide), if_pos rfl]

theorem fireAlign_skip (s : ClockState) (h : s.HoldAlign ≠ 3) :
    fireAlign s = s := by
  unfold fireAlign
  rw [if_neg h]

theorem fireOption_skip (s : ClockState) (h : s.HoldOption ≠ 3) :
    fireOption s = s := by
  unfold fireOption
  rw [if_neg h]

theorem fireTimeSet_skip (s : ClockState) (h : s.HoldTimeSet ≠ 3) :
    fireTimeSet s = s := by
  unfold fireTimeSet
  rw [if_neg h]

theorem checkHeld_align_steady (s : ClockState)
    (h : (s.HoldAlign + 1) % 256 ≠ 3) :
    checkHeld comboAlign s =
      { s with HoldAlign := (s.HoldAlign + 1) % 256, HoldOption := 0,
               HoldTimeSet := 0 } := by
  unfold checkHeld
  rw [holdCount_align, fireAlign_skip _ h,
    fireOption_skip _ (show (0 : Nat) ≠ 3 by omega),
    fireTimeSet_skip _ (show (0 : Nat) ≠ 3 by omega)]

theorem checkHeld_option_steady (s : ClockState)
    (h : (s.HoldOption + 1) % 256 ≠ 3) :
    checkHeld comboOption s =
      { s with HoldOption := (s.HoldOption + 1) % 256, HoldTimeSet := 0,
               HoldAlign := 0 } := by
  unfold checkHeld
  rw [holdCount_option, fireAlign_skip _ (show (0 : Nat) ≠ 3 by omega),
    fireOption_skip _ h,
    fireTimeSet_skip _ (show (0 : Nat) ≠ 3 by omega)]

theorem checkHeld_timeset_steady (s : ClockState)
    (h : (s.HoldTimeSet + 1) % 256 ≠ 3) :
    checkHeld comboTimeSet s =
      { s with HoldTimeSet := (s.HoldTimeSet + 1) % 256, HoldOption := 0,
               HoldAlign := 0 } := by
  unfold checkHeld
  rw [holdCount_timeset, fireAlign_skip _ (show (0 : Nat) ≠ 3 by omega),
    fireOption_skip _ (show (0 : Nat) ≠ 3 by omega), fireTimeSet_skip _ h]

theorem steady_align (s : ClockState) (hp : s.PINDLast = comboAlign)
    (hc : (s.HoldAlign + 1) % 256 ≠ 3) (hst : s.SettingTime < 4)
    (ht : s.timeNow + 1 ≤ 43200) :
    ctrlOf (holdTick comboAlign s) =
      { ctrlOf s with HoldAlign := (s.HoldAlign + 1) % 256, HoldOption := 0,
                      HoldTimeSet := 0, timeNow := s.timeNow + 1 } := by
  unfold holdTick
  rw [loopIter_true, checkButtons_same _ _ hp, checkHeld_align_steady _ hc]
  rw [tickStep_no_wrap]
  · rw [if_pos (Or.inr ⟨rfl, hst⟩), ctrl_displayUpdate]; rfl
  · exact hst
  · exact ht

theorem steady_option (s : ClockState) (hp : s.PINDLast = comboOption)
    (hc : (s.HoldOption + 1) % 256 ≠ 3) (hst : s.SettingTime < 4)
    (ht : s.timeNow + 1 ≤ 43200) :
    ctrlOf (holdTick comboOption s) =
      { ctrlOf s with HoldOption := (s.HoldOption + 1) % 256,
                      HoldTimeSet := 0, HoldAlign := 0,
                      timeNow := s.timeNow + 1 } := by
  unfold holdTick
  rw [loopIter_true, checkButtons_same _ _ hp, checkHeld_option_steady _ hc]
  rw [tickStep_no_wrap]
  · rw [if_pos (Or.inr ⟨rfl, hst⟩), ctrl_displayUpdate]; rfl
  · exact hst
  · exact ht

theorem steady_timeset (s : ClockState) (hp : s.PINDLast = comboTimeSet)
    (hc : (s.HoldTimeSet + 1) % 256 ≠ 3) (hst : s.SettingTime < 4)
    (ht : s.timeNow + 1 ≤ 43200) :
    ctrlOf (holdTick comboTimeSet s) =
      { ctrlOf s with HoldTimeSet := (s.HoldTimeSet + 1) % 256,
                      HoldOption := 0, HoldAlign := 0,
                      timeNow := s.timeNow + 1 } := by
  unfold holdTick
  rw [loopIter_true, checkButtons_same _ _ hp, checkHeld_timeset_steady _ hc]
  rw [tickStep_no_wrap]
  · rw [if_pos (Or.inr ⟨rfl, hst⟩), ctrl_displayUpdate]; rfl
  · exact hst
  · exact ht

/-- The mode triple of a state is readable off its control part. -/
theorem modeTriple_ctrl (s : ClockState) (c : Ctrl) (h : ctrlOf s = c) :
    modeTriple s = (c.AlignMode, c.OptionMode, c.SettingTime) := by
  unfold modeTriple
  rw [show s.AlignMode = c.AlignMode from congrArg Ctrl.AlignMode h,
    show s.OptionMode = c.OptionMode from congrArg Ctrl.OptionMode h,
    show s.SettingTime = c.SettingTime from congrArg Ctrl.SettingTime h]

set_option maxRecDepth 100000 in
/-- Holding `+`/`-` for `3 + n` ticks, `n < 256`: the control state
follows the closed form `c6AlignCtrl n`, so alignment mode stays on
and nothing refires through tick 258. -/
theorem c6_steady_align :
    ∀ n : Nat, n < 256 → ctrlOf (c6Held comboAlign (3 + n)) = c6AlignCtrl n := by
  intro n
  induction n with
  | zero => intro _; decide
  | succ m ih =>
    intro hm
    have H := ih (by omega)
    have hp : (c6Held comboAlign (3 + m)).PINDLast = comboAlign :=
      congrArg Ctrl.PINDLast H
    have ha : (c6Held comboAlign (3 + m)).HoldAlign = (3 + m) % 256 :=
      congrArg Ctrl.HoldAlign H
    have ht0 : (c6Held comboAlign (3 + m)).timeNow = 4 + (m : Int) :=
      congrArg Ctrl.timeNow H
    have hst : (c6Held comboAlign (3 + m)).SettingTime = 0 :=
      congrArg Ctrl.SettingTime H
    have hstep : c6Held comboAlign (3 + (m + 1)) =
        holdTick comboAlign (c6Held comboAlign (3 + m)) :=
      Function.iterate_succ_apply' _ _ _
    rw [hstep, steady_align _ hp (by rw [ha]; omega) (by rw [hst]; omega)
      (by rw [ht0]; omega), H, ha, ht0]
    unfold c6AlignCtrl
    dsimp only
    congr 1 <;> first | rfl | omega

set_option maxRecDepth 100000 in
/-- Holding `+`/`Z` for `3 + n` ticks, `n < 256`: the control state
follows the closed form `c6OptionCtrl n`. -/
theorem c6_steady_option :
    ∀ n : Nat, n < 256 →
      ctrlOf (c6Held comboOption (3 + n)) = c6OptionCtrl n := by
  intro n
  induction n with
  | zero => intro _; decide
  | succ m ih =>
    intro hm
    have H := ih (by omega)
    have hp : (c6Held comboOption (3 + m)).PINDLast = comboOption :=
      congrArg Ctrl.PINDLast H
    have ha : (c6Held comboOption (3 + m)).HoldOption = (3 + m) % 256 :=
      congrArg Ctrl.HoldOption H
    have ht0 : (c6Held comboOption (3 + m)).timeNow = 4 + (m : Int) :=
      congrArg Ctrl.timeNow H
    have hst : (c6Held comboOption (3 + m)).SettingTime = 0 :=
      congrArg Ctrl.SettingTime H
    have hstep : c6Held comboOption (3 + (m + 1)) =
        holdTick comboOption (c6Held comboOption (3 + m)) :=
      Function.iterate_succ_apply' _ _ _
    rw [hstep, steady_option _ hp (by rw [ha]; omega) (by rw [hst]; omega)
      (by rw [ht0]; omega), H, ha, ht0]
    unfold c6OptionCtrl
    dsimp only
    congr 1 <;> first | rfl | omega

set_option maxRecDepth 100000 in
/-- Holding `Z` for `3 + n` ticks, `n < 256`: the control state follows
the closed form `c6TimeSetCtrl n`. -/
theorem c6_steady_timeset :
    ∀ n : Nat, n < 256 →
      ctrlOf (c6Held comboTimeSet (3 + n)) = c6TimeSetCtrl n := by
  intro n
  induction n with
  | zero => intro _; decide
  | succ m ih =>
    intro hm
    have H := ih (by omega)
    have hp : (c6Held comboTimeSet (3 + m)).PINDLast = comboTimeSet :=
      congrArg Ctrl.PINDLast H
    have ha : (c6Held comboTimeSet (3 + m)).HoldTimeSet = (3 + m) % 256 :=
      congrArg Ctrl.HoldTimeSet H
    have ht0 : (c6Held comboTimeSet (3 + m)).timeNow = 4 + (m : Int) :=
      congrArg Ctrl.timeNow H
    have hst : (c6Held comboTimeSet (3 + m)).SettingTime = 1 :=
      congrArg Ctrl.SettingTime H
    have hstep : c6Held comboTimeSet (3 + (m + 1)) =
        holdTick comboTimeSet (c6Held comboTimeSet (3 + m)) :=
      Function.iterate_succ_apply' _ _ _
    rw [hstep, steady_timeset _ hp (by rw [ha]; omega) (by rw [hst]; omega)
      (by rw [ht0]; omega), H, ha, ht0]
    unfold c6TimeSetCtrl
    dsimp only
    congr 1 <;> first | rfl | omega

/-- `fireAlign` when the counter hits 3 with the factory reset disarmed
and alignment mode already active: arm the overrides and leave the
mode. -/
theorem fireAlign_fire_exit (s : ClockState) (hc : s.HoldAlign = 3)
    (hf : s.FactoryResetDisable ≠ 0) (ha : s.AlignMode ≠ 0) :
    fireAlign s =
      { s with MomentaryOverridePlus := 1, MomentaryOverrideMinus := 1,
               OptionMode := 0, SettingTime := 0, AlignMode := 0 } := by
  unfold fireAlign
  rw [if_pos hc, if_neg hf, if_pos ha]

/-- `CheckHeld` on the `+`/`-` combination when the incremented counter
reaches 3 again with alignment mode active: the one-shot refires and
switches alignment mode back off. -/
theorem checkHeld_align_refire (s : ClockState)
    (hc : (s.HoldAlign + 1) % 256 = 3) (hf : s.FactoryResetDisable ≠ 0)
    (ha : s.AlignMode ≠ 0) :
    checkHeld comboAlign s =
      { s with HoldAlign := 3, HoldOption := 0, HoldTimeSet := 0,
               MomentaryOverridePlus := 1, MomentaryOverrideMinus := 1,
               OptionMode := 0, SettingTime := 0, AlignMode := 0 } := by
  unfold checkHeld
  rw [holdCount_align]
  rw [fireAlign_fire_exit]
  · rw [fireOption_skip _ (show (0 : Nat) ≠ 3 by omega),
      fireTimeSet_skip _ (show (0 : Nat) ≠ 3 by omega), hc]
  · exact hc
  · exact hf
  · exact ha

/-- A full held loop iteration at the moment the wrapped `+`/`-` hold
counter reaches 3 again: alignment mode is switched back off.  The
hypotheses are phrased on the control projection so they can be read
off a closed-form control state without evaluating the underlying
iterated machine state. -/
theorem refire_align (s : ClockState)
    (hp : (ctrlOf s).PINDLast = comboAlign)
    (hc : ((ctrlOf s).HoldAlign + 1) % 256 = 3)
    (hf : (ctrlOf s).FactoryResetDisable ≠ 0)
    (ha : (ctrlOf s).AlignMode ≠ 0)
    (ht : (ctrlOf s).timeNow + 1 ≤ 43200) :
    ctrlOf (holdTick comboAlign s) =
      { ctrlOf s with HoldAlign := 3, HoldOption := 0, HoldTimeSet := 0,
                      MomentaryOverridePlus := 1, MomentaryOverrideMinus := 1,
                      OptionMode := 0, SettingTime := 0, AlignMode := 0,
                      timeNow := s.timeNow + 1 } := by
  have hp2 : s.PINDLast = comboAlign := hp
  have hc2 : (s.HoldAlign + 1) % 256 = 3 := hc
  have hf2 : s.FactoryResetDisable ≠ 0 := hf
  have ha2 : s.AlignMode ≠ 0 := ha
  have ht2 : s.timeNow + 1 ≤ 43200 := ht
  unfold holdTick
  rw [loopIter_true, checkButtons_same _ _ hp2]
  rw [checkHeld_align_refire]
  · rw [tickStep_no_wrap]
    · rw [if_pos (Or.inl (by omega)), ctrl_displayUpdate]; rfl
    · exact (show (0 : Nat) < 4 by omega)
    · exact ht2
  · exact hc2
  · exact hf2
  · exact ha2

set_option maxRecDepth 100000 in
/-- Claim C6 (corrected): for each valid hold combination (`+`/`-`,
`+`/`Z`, `Z` alone), a 2-tick hold then release fires no mode
transition and arms no override; a 3-tick hold fires exactly one
transition and arms the overrides of exactly the buttons involved; the
transition does not refire while the hold continues through tick 258
(hold counts `3 + n`, `n < 256`); and the release edge after a fire is
suppressed exactly once — the armed overrides are consumed by the
release (mode unchanged, no sleep toggle from the suppressed `Z`
release), and the next `Z` press/release acts normally. -/
theorem c6_hold_behaviour :
    (modeTriple (c6Release comboAlign 2) = (0, 0, 0) ∧
     modeTriple (c6Release comboOption 2) = (0, 0, 0) ∧
     modeTriple (c6Release comboTimeSet 2) = (0, 0, 0) ∧
     overridesOf (c6Release comboAlign 2) = (0, 0, 0) ∧
     overridesOf (c6Release comboOption 2) = (0, 0, 0) ∧
     overridesOf (c6Release comboTimeSet 2) = (0, 0, 0)) ∧
    (modeTriple (c6Held comboAlign 3) = (1, 0, 0) ∧
     modeTriple (c6Held comboOption 3) = (0, 1, 0) ∧
     modeTriple (c6Held comboTimeSet 3) = (0, 0, 1) ∧
     overridesOf (c6Held comboAlign 3) = (1, 1, 0) ∧
     overridesOf (c6Held comboOption 3) = (1, 0, 1) ∧
     overridesOf (c6Held comboTimeSet 3) = (0, 0, 1)) ∧
    ((∀ n : Fin 256, modeTriple (c6Held comboAlign (3 + n.val)) = (1, 0, 0)) ∧
     (∀ n : Fin 256, modeTriple (c6Held comboOption (3 + n.val)) = (0, 1, 0)) ∧
     (∀ n : Fin 256,
       modeTriple (c6Held comboTimeSet (3 + n.val)) = (0, 0, 1))) ∧
    (modeTriple (c6Release comboAlign 3) = (1, 0, 0) ∧
     modeTriple (c6Release comboOption 3) = (0, 1, 0) ∧
     modeTriple (c6Release comboTimeSet 3) = (0, 0, 1) ∧
     overridesOf (c6Release comboAlign 3) = (0, 0, 0) ∧
     overridesOf (c6Release comboOption 3) = (0, 0, 0) ∧
     overridesOf (c6Release comboTimeSet 3) = (0, 0, 0) ∧
     (c6Release comboTimeSet 2).SleepMode = 1 ∧
     (c6Release comboTimeSet 3).SleepMode = 0 ∧
     modeTriple (runTrace (pr comboTimeSet) (c6Release comboTimeSet 3)) =
       (0, 0, 2)) := by
  refine ⟨by decide, by decide, ⟨?_, ?_, ?_⟩, by decide⟩
  · intro n
    rw [modeTriple_ctrl _ _ (c6_steady_align n.val n.isLt)]; rfl
  · intro n
    rw [modeTriple_ctrl _ _ (c6_steady_option n.val n.isLt)]; rfl
  · intro n
    rw [modeTriple_ctrl _ _ (c6_steady_timeset n.val n.isLt)]; rfl

set_option maxRecDepth 100000 in
/-- Claim C6 counterexample: the hold counters are 8-bit, so a
continuously held combination does refire after the fire at tick 3 —
at tick 259 the wrapped `+`/`-` counter reaches 3 again and the
alignment mode entered at tick 3 is switched back off. -/
theorem c6_refire_at_259 :
    modeTriple (c6Held comboAlign 3) = (1, 0, 0) ∧
    modeTriple (c6Held comboAlign 259) = (0, 0, 0) := by
  constructor
  · decide
  · have H : ctrlOf (c6Held comboAlign 258) = c6AlignCtrl 255 :=
      c6_steady_align 255 (by omega)
    have hp : (ctrlOf (c6Held comboAlign 258)).PINDLast = comboAlign := by
      rw [H]; rfl
    have hc : ((ctrlOf (c6Held comboAlign 258)).HoldAlign + 1) % 256 = 3 := by
      rw [H]; decide
    have hf : (ctrlOf (c6Held comboAlign 258)).FactoryResetDisable ≠ 0 := by
      rw [H]; decide
    have ha : (ctrlOf (c6Held comboAlign 258)).AlignMode ≠ 0 := by
      rw [H]; decide
    have ht : (ctrlOf (c6Held comboAlign 258)).timeNow + 1 ≤ 43200 := by
      rw [H]; decide
    have hstep : c6Held comboAlign 259 =
        holdTick comboAlign (c6Held comboAlign 258) :=
      Function.iterate_succ_apply' _ _ _
    rw [hstep, modeTriple_ctrl _ _ (refire_align _ hp hc hf ha ht)]

end Bulbdial
